import Mathlib

/-!
Shallow embedding of `src/discordb.py` (the errbot Discord backend adapter).

The vendor client's connection state is modelled explicitly: the member cache
as a `List DUser`, the channel/guild caches as lists inside `ClientState`.
Every identifier-keyed vendor lookup (`get_user`, `get_channel`, `get_guild`)
becomes an association lookup over those lists.  Coroutine dispatch is
modelled by the value that would be sent (for `send_message`, the list of
dispatched events in dispatch order).
-/

namespace Discordb

/-- Discord message size limit, `DISCORD_MESSAGE_SIZE_LIMIT = 4096`
(src/discordb.py line 26). -/
def DISCORD_MESSAGE_SIZE_LIMIT : Nat := 4096

/-! ## Persons (`DiscordPerson`, lines 48-113) -/

/-- A member record in the vendor client's member cache: what
`client.get_user` returns (`id`, `.name`, `.discriminator` are the fields the
adapter reads). -/
structure DUser where
  id : String
  name : String
  discriminator : String
deriving DecidableEq, Repr

/-- `DiscordBackend.client.get_user(user_id)`: look the id up in the member
cache; `None` when unknown. -/
def get_user (members : List DUser) (user_id : String) : Option DUser :=
  members.find? (fun u => u.id == user_id)

/-- `DiscordPerson.__init__` stores only the user id (line 55-56). -/
structure DiscordPerson where
  user_id : String
deriving DecidableEq, Repr

/-- `DiscordPerson.id` (lines 69-71). -/
def DiscordPerson.id (p : DiscordPerson) : String := p.user_id

/-- `DiscordPerson.fullname` (lines 93-100): resolve the user through the live
connection; `None` on a lookup miss, otherwise `f"{usr.name}#{usr.discriminator}"`. -/
def DiscordPerson.fullname (members : List DUser) (p : DiscordPerson) : Option String :=
  match get_user members p.user_id with
  | none => none
  | some usr => some (usr.name ++ "#" ++ usr.discriminator)

/-- `DiscordPerson.aclattr` (lines 102-104): returns `self.fullname`. -/
def DiscordPerson.aclattr (members : List DUser) (p : DiscordPerson) : Option String :=
  p.fullname members

/-- `DiscordPerson.__eq__` (lines 109-110): `isinstance(other, DiscordPerson)
and other.aclattr == self.aclattr`.  Both sides being `DiscordPerson` in the
model, this is the `aclattr` comparison (Python `None == None` is `True`,
matching `Option.beq`). -/
def DiscordPerson.eqPy (members : List DUser) (p other : DiscordPerson) : Bool :=
  other.aclattr members == p.aclattr members

/-! ## Channels, guilds, client state -/

/-- The concrete class of a channel object in the vendor cache;
`DiscordRoom.channel_name_to_id` filters with
`isinstance(channel, discord.TextChannel)`, the `DiscordCategory` override
with `isinstance(channel, discord.CategoryChannel)`. -/
inductive ChannelKind
  | text
  | category
  | voice
deriving DecidableEq, Repr

/-- A channel record as seen through `client.get_all_channels()` /
`client.get_channel`: the adapter reads `.id`, `.name`, `.guild.id` and the
concrete class. -/
structure DChannel where
  id : Nat
  name : String
  guild_id : Nat
  kind : ChannelKind
deriving DecidableEq, Repr

/-- A guild record: the adapter only reads `.id`. -/
structure DGuild where
  id : Nat
deriving DecidableEq, Repr

/-- The vendor client's cache state: `client.guilds` and the channels returned
by `client.get_all_channels()`. -/
structure ClientState where
  guilds : List DGuild
  channels : List DChannel
deriving DecidableEq, Repr

/-- `client.get_channel(channel_id)`. -/
def get_channel (client : ClientState) (channel_id : Nat) : Option DChannel :=
  client.channels.find? (fun c => c.id == channel_id)

/-- `client.get_guild(guild_id)`. -/
def get_guild (client : ClientState) (guild_id : Nat) : Option DGuild :=
  client.guilds.find? (fun g => g.id == guild_id)

/-! ## Rooms (`DiscordRoom`, lines 116-307; `DiscordCategory`, lines 310-370) -/

/-- The filter predicate of `channel_name_to_id` (lines 157-159):
`self._channel_name == channel.name and channel.guild.id == self._guild_id and
isinstance(channel, <kind>)`; `kind` is `text` in `DiscordRoom` and
`category` in the `DiscordCategory` override. -/
def channel_matches (channel_name : String) (guild_id : Nat) (kind : ChannelKind)
    (c : DChannel) : Bool :=
  channel_name == c.name && c.guild_id == guild_id && c.kind == kind

/-- `DiscordRoom.channel_name_to_id` (lines 151-168) and the
`DiscordCategory` override (lines 312-329), parametrised by the channel
class: build `matching`, return `None` on no match, else `matching[0].id`. -/
def channel_name_to_id (client : ClientState) (channel_name : String) (guild_id : Nat)
    (kind : ChannelKind) : Option Nat :=
  match client.channels.filter (channel_matches channel_name guild_id kind) with
  | [] => none
  | c :: _ => some c.id

/-- Whether `channel_name_to_id` takes the `len(matching) > 1` branch and logs
the "Multiple matching channels" warning (lines 164-166). -/
def channel_name_to_id_warns (client : ClientState) (channel_name : String) (guild_id : Nat)
    (kind : ChannelKind) : Bool :=
  (client.channels.filter (channel_matches channel_name guild_id kind)).length > 1

/-- The state `DiscordRoom.__init__` leaves behind (lines 144-146):
`_guild_id`, `_channel_name`, and `_channel_id` (`None` if the channel does
not exist). -/
structure DiscordRoom where
  channel_name : String
  guild_id : Nat
  channel_id : Option Nat
deriving DecidableEq, Repr

/-- `DiscordRoom.__init__(channel_name, guild_id)` (lines 132-146): raises
`ValueError` when the guild id is unknown, else stores name, guild and the
looked-up channel id.  The constructor takes ONLY the name+guild form; an
existing channel id cannot be supplied to it. -/
def DiscordRoom.init (client : ClientState) (channel_name : String) (guild_id : Nat) :
    Except String DiscordRoom :=
  match get_guild client guild_id with
  | none => .error "ValueError: Can't find guild id to init DiscordRoom"
  | some _ => .ok ⟨channel_name, guild_id, channel_name_to_id client channel_name guild_id .text⟩

/-- `DiscordCategory.__init__`: same constructor body, but `channel_name_to_id`
resolves against `discord.CategoryChannel` (lines 312-329). -/
def DiscordCategory.init (client : ClientState) (channel_name : String) (guild_id : Nat) :
    Except String DiscordRoom :=
  match get_guild client guild_id with
  | none => .error "ValueError: Can't find guild id to init DiscordRoom"
  | some _ => .ok ⟨channel_name, guild_id, channel_name_to_id client channel_name guild_id .category⟩

/-- `DiscordRoom.exists` (lines 253-255): `self._channel_id is not None and
DiscordBackend.client.get_channel(self._channel_id) is not None`. -/
def DiscordRoom.room_exists (r : DiscordRoom) (client : ClientState) : Bool :=
  match r.channel_id with
  | none => false
  | some cid => (get_channel client cid).isSome

/-- Result of a state-changing room operation (`create` / `destroy`): the
raised `RoomError` message if any, and the room object and client cache
afterwards. -/
structure OpResult where
  err : Option String
  room : DiscordRoom
  client : ClientState
deriving DecidableEq, Repr

/-- `DiscordRoom.create_room` (lines 199-206): `guild.create_text_channel`
adds a fresh channel to the vendor state and the room stores its id.
`fresh` is the id the vendor assigns to the new channel. -/
def DiscordRoom.create_room (r : DiscordRoom) (client : ClientState) (fresh : Nat) :
    DiscordRoom × ClientState :=
  ({ r with channel_id := some fresh },
   { client with channels := client.channels ++ [⟨fresh, r.channel_name, r.guild_id, .text⟩] })

/-- `DiscordRoom.create` (lines 208-213): `if self.exists: ... raise
RoomError("Room exists")`, else run `create_room`. -/
def DiscordRoom.create (r : DiscordRoom) (client : ClientState) (fresh : Nat) : OpResult :=
  if r.room_exists client then
    ⟨some "Room exists", r, client⟩
  else
    let (r2, client2) := r.create_room client fresh
    ⟨none, r2, client2⟩

/-- `DiscordRoom.destroy` (lines 215-221): `if not self.exists: ... raise
RoomError("Room doesn't exist")`, else delete the channel from the vendor
state (the room object itself is not mutated). -/
def DiscordRoom.destroy (r : DiscordRoom) (client : ClientState) : OpResult :=
  if !r.room_exists client then
    ⟨some "Room doesn't exist", r, client⟩
  else
    ⟨none, r,
     { client with channels := client.channels.filter (fun c => some c.id != r.channel_id) }⟩

/-- `DiscordRoom.join` (lines 223-230): unconditionally
`raise RuntimeError("Can't join channels")`. -/
def DiscordRoom.join (username password : Option String) : Except String Unit :=
  .error "Can't join channels"

/-- `DiscordRoom.leave` (lines 191-197): `log.error('Not implemented')` and
return `None` — a no-op that succeeds. -/
def DiscordRoom.leave (reason : Option String) : Except String Unit :=
  .ok ()

/-- The message `DiscordRoom.leave` logs (at error level) on every call. -/
def DiscordRoom.leave_log : String := "Not implemented"

/-- `DiscordCategory.join` (lines 351-352): `raise RuntimeError("Can't join
categories")`. -/
def DiscordCategory.join (username password : Option String) : Except String Unit :=
  .error "Can't join categories"

/-- `DiscordCategory.leave` (lines 354-355): `raise RuntimeError("Can't leave
categories")`. -/
def DiscordCategory.leave (reason : Option String) : Except String Unit :=
  .error "Can't leave categories"

/-! ## Outbound dispatch (`DiscordBackend.send_message`, lines 497-510) -/

/-- Python `range(0, stop, step)` for `step > 0`: the indices
`0, step, 2*step, ...` below `stop`; it has `(stop + step - 1) / step`
elements (`0` when `stop = 0`, and for `step = 0` Python would raise, here the
list is empty). -/
def pyRange0 (stop step : Nat) : List Nat :=
  (List.range ((stop + step - 1) / step)).map (fun k => k * step)

/-- The chunk list of `send_message` (lines 506-507):
`[msg.body[i:i + limit] for i in range(0, len(msg.body), limit)]`, the body
modelled as its character list (`body[i:i+limit]` is `take limit (drop i body)`). -/
def send_message_chunks (body : List Char) (limit : Nat) : List (List Char) :=
  (pyRange0 body.length limit).map (fun i => (body.drop i).take limit)

/-- One observable action of the `send_message` loop body (lines 506-510):
the scheduled `recipient.send(content=message)` coroutine, a typing-indicator
trigger (none occurs in `send_message`), or the framework bookkeeping call
`super().send_message(msg)`. -/
inductive SendEvent
  | sendCall (content : List Char)
  | typingCall
  | superSend
deriving DecidableEq, Repr

/-- The events `send_message` dispatches, in dispatch order (lines 506-510):
for each chunk, the `recipient.send` call then the `super().send_message`
call (which is inside the `for` loop); no typing event is ever produced. -/
def send_message_trace (body : List Char) : List SendEvent :=
  ((send_message_chunks body DISCORD_MESSAGE_SIZE_LIMIT).map
    (fun c => [SendEvent.sendCall c, SendEvent.superSend])).flatten

/-! ## Presence (`DiscordBackend.on_member_update`, lines 461-476) -/

/-- `discord.Status` values the adapter can observe (the four the handler
discriminates, plus `invisible`, which the vendor enumeration also carries and
the handler's `if`/`elif` chain does not match). -/
inductive DStatus
  | online
  | offline
  | idle
  | dnd
  | invisible
deriving DecidableEq, Repr

/-- The errbot generic presence states `ONLINE`, `OFFLINE`, `AWAY`, `DND`. -/
inductive ErrStatus
  | ONLINE
  | OFFLINE
  | AWAY
  | DND
deriving DecidableEq, Repr

/-- An errbot `Presence(person, status)` callback payload; the person is
`DiscordPerson(after.id)`, kept as the raw member id. -/
structure ErrPresence where
  person_id : String
  status : ErrStatus
deriving DecidableEq, Repr

/-- The four-way status table of the `elif` chain in `on_member_update`
(lines 467-474): `online → ONLINE`, `offline → OFFLINE`, `idle → AWAY`,
`dnd → DND`; `none` for a status the chain does not match. -/
def status_table : DStatus → Option ErrStatus
  | .online => some .ONLINE
  | .offline => some .OFFLINE
  | .idle => some .AWAY
  | .dnd => some .DND
  | .invisible => none

/-- `DiscordBackend.on_member_update(before, after)` (lines 461-476), returning
the list of `callback_presence` invocations it makes: none when
`before.status == after.status` (the `else` branch only logs), else the
`if`/`elif` chain fires at most one callback with the mapped status. -/
def on_member_update (member_id : String) (before after : DStatus) : List ErrPresence :=
  if before ≠ after then
    if after = .online then [⟨member_id, .ONLINE⟩]
    else if after = .offline then [⟨member_id, .OFFLINE⟩]
    else if after = .idle then [⟨member_id, .AWAY⟩]
    else if after = .dnd then [⟨member_id, .DND⟩]
    else []
  else []

/-! ## Room queries (`DiscordBackend.query_room`, lines 478-495) -/

/-- Python `s.startswith(pre)`: prefix test on the character sequence. -/
def pyStartsWith (s pre : String) : Bool :=
  pre.data.isPrefixOf s.data

/-- Python `s[n:]`: drop the first `n` characters. -/
def pyDrop (s : String) (n : Nat) : String :=
  ⟨s.data.drop n⟩

/-- The value `query_room` returns: a `DiscordCategory` for a `##` name, a
`DiscordRoom` for a `#` name (`None` is modelled by the surrounding
`Option`). -/
inductive QueryRoomResult
  | category (r : DiscordRoom)
  | room (r : DiscordRoom)
deriving DecidableEq, Repr

/-- `DiscordBackend.query_room(room)` (lines 478-495):
`guild = client.guilds[0]` (an `IndexError` when the guild list is empty);
`##name` builds a `DiscordCategory(name, guild.id)`, `#name` a
`DiscordRoom(name, guild.id)` (either constructor can raise), anything else
falls through and returns `None`. -/
def query_room (client : ClientState) (room : String) : Except String (Option QueryRoomResult) :=
  match client.guilds.head? with
  | none => .error "IndexError: client.guilds is empty"
  | some guild =>
    if pyStartsWith room "##" then
      (DiscordCategory.init client (pyDrop room 2) guild.id).map (fun r => some (.category r))
    else if pyStartsWith room "#" then
      (DiscordRoom.init client (pyDrop room 1) guild.id).map (fun r => some (.room r))
    else
      .ok none

/-- Modelled from the spec: the constructor variant that can be handed both
identifying forms is missing from src/ — `DiscordRoom.__init__` there (lines
132-146) takes only the name+guild form.  The spec: a Room is "identified
either by an opaque channel identifier (room already exists) or by a (name,
parent-guild) pair"; "Exactly one of the two identifying forms holds at a
time — this is an explicit invariant enforced at construction (constructing
with both forms simultaneously fails with a construction error)"; "For all
Room constructions supplying both an identifier and a name: construction
fails with a \"mutually exclusive\" error."  The non-conflicting branches
delegate to the source constructors (`from_id` resolves an id to its channel,
lines 124-130; the name branch is `__init__`). -/
def DiscordRoom.init_both_forms (client : ClientState) (channel_name : Option String)
    (channel_id : Option Nat) (guild_id : Nat) : Except String DiscordRoom :=
  match channel_name, channel_id with
  | some _, some _ => .error "mutually exclusive"
  | none, some cid =>
    match get_channel client cid with
    | none => .error "ValueError: Channel id doesn't exist!"
    | some c => DiscordRoom.init client c.name c.guild_id
  | some n, none => DiscordRoom.init client n guild_id
  | none, none => .error "no identifying form supplied"

/-! ## Helper lemmas about the chunking of `send_message` -/

/-- The number of chunks is the number of loop indices,
`len(range(0, L, limit)) = (L + limit - 1) / limit`. -/
theorem send_message_chunks_length (body : List Char) (limit : Nat) :
    (send_message_chunks body limit).length = (body.length + limit - 1) / limit := by
  simp [send_message_chunks, pyRange0]

/-- Every chunk is a `take limit`, hence no longer than `limit`. -/
theorem send_message_chunks_le (body : List Char) (limit : Nat) :
    ∀ c ∈ send_message_chunks body limit, c.length ≤ limit := by
  intro c hc
  simp only [send_message_chunks, pyRange0, List.map_map, List.mem_map, List.mem_range] at hc
  obtain ⟨k, -, rfl⟩ := hc
  simp [List.length_take]

/-- Unfolding one step of the chunking of a non-empty body: the first chunk is
`take limit`, the rest is the chunking of `drop limit`. -/
theorem send_message_chunks_cons (limit : Nat) (hM : 0 < limit) (a : Char) (t : List Char) :
    send_message_chunks (a :: t) limit
      = (a :: t).take limit :: send_message_chunks ((a :: t).drop limit) limit := by
  unfold send_message_chunks pyRange0
  have hsteps : ((a :: t).length + limit - 1) / limit = ((a :: t).length - 1) / limit + 1 := by
    have h1 : (a :: t).length + limit - 1 = ((a :: t).length - 1) + limit := by
      simp only [List.length_cons]; omega
    rw [h1, Nat.add_div_right _ hM]
  have hcount : (((a :: t).drop limit).length + limit - 1) / limit
      = ((a :: t).length - 1) / limit := by
    rw [List.length_drop]
    rcases Nat.le_total limit (a :: t).length with h | h
    · congr 1
      simp only [List.length_cons] at h ⊢
      omega
    · have h1 : (a :: t).length - limit = 0 := by omega
      rw [h1]
      rw [Nat.div_eq_of_lt (by omega),
        Nat.div_eq_of_lt (by simp only [List.length_cons] at h ⊢; omega)]
  rw [hsteps, hcount, List.range_succ_eq_map]
  simp only [List.map_cons, List.map_map, Nat.zero_mul, List.drop_zero]
  congr 1
  apply List.map_congr_left
  intro k _
  simp only [Function.comp_apply, List.drop_drop, Nat.succ_mul]
  rw [Nat.add_comm (k * limit) limit]

/-- Concatenating the chunks in order reconstructs the body (induction on a
length bound). -/
theorem send_message_chunks_flatten_aux (limit : Nat) (hM : 0 < limit) :
    ∀ (n : Nat) (body : List Char), body.length ≤ n →
      (send_message_chunks body limit).flatten = body := by
  intro n
  induction n with
  | zero =>
    intro body hb
    have hbody : body = [] := List.length_eq_zero.mp (Nat.le_zero.mp hb)
    subst hbody
    have h0 : (([] : List Char).length + limit - 1) / limit = 0 :=
      Nat.div_eq_of_lt (by simp only [List.length_nil]; omega)
    simp [send_message_chunks, pyRange0, h0]
  | succ n ih =>
    intro body hb
    cases body with
    | nil =>
      have h0 : (([] : List Char).length + limit - 1) / limit = 0 :=
        Nat.div_eq_of_lt (by simp only [List.length_nil]; omega)
      simp [send_message_chunks, pyRange0, h0]
    | cons a t =>
      rw [send_message_chunks_cons limit hM a t, List.flatten_cons]
      rw [ih ((a :: t).drop limit)
        (by simp only [List.length_drop, List.length_cons] at hb ⊢; omega)]
      exact List.take_append_drop limit (a :: t)

/-- Concatenating the chunks in order reconstructs the body. -/
theorem send_message_chunks_flatten (limit : Nat) (hM : 0 < limit) (body : List Char) :
    (send_message_chunks body limit).flatten = body :=
  send_message_chunks_flatten_aux limit hM body.length body Nat.le.refl

/-- Extract the contents of the `recipient.send` calls from a trace. -/
def sendContents (trace : List SendEvent) : List (List Char) :=
  trace.filterMap (fun e =>
    match e with
    | SendEvent.sendCall c => some c
    | _ => none)

/-- The `send_message` loop trace over any chunk list: it holds no typing
event, and its send calls are exactly the chunks in order. -/
theorem send_trace_aux (cs : List (List Char)) :
    SendEvent.typingCall ∉ ((cs.map
        (fun c => [SendEvent.sendCall c, SendEvent.superSend])).flatten) ∧
    sendContents ((cs.map
        (fun c => [SendEvent.sendCall c, SendEvent.superSend])).flatten) = cs := by
  induction cs with
  | nil => simp [sendContents]
  | cons c cs ih =>
    refine ⟨?_, ?_⟩
    · simp [ih.1]
    · simp only [List.map_cons, List.flatten_cons, sendContents, List.filterMap_append]
      have h1 : sendContents [SendEvent.sendCall c, SendEvent.superSend] = [c] := rfl
      simpa [sendContents] using ih.2

/-- The chunk lengths of a 5000-character body at the source limit 4096:
two chunks, of 4096 and 904 characters. -/
theorem chunks_of_5000 :
    (send_message_chunks (List.replicate 5000 'a') DISCORD_MESSAGE_SIZE_LIMIT).map List.length
      = [4096, 904] := by
  unfold send_message_chunks pyRange0
  rw [List.length_replicate]
  have h2 : (5000 + DISCORD_MESSAGE_SIZE_LIMIT - 1) / DISCORD_MESSAGE_SIZE_LIMIT = 2 := by
    norm_num [DISCORD_MESSAGE_SIZE_LIMIT]
  rw [h2]
  rw [show List.range 2 = [0, 1] from rfl]
  simp only [List.map_cons, List.map_nil, List.length_take, List.length_drop,
    List.length_replicate, DISCORD_MESSAGE_SIZE_LIMIT]
  norm_num

/-! ## Claims -/

/-- Claim C1 (code-bug exhibit): the claim says Person equality holds iff the
ids are equal, independently of display-name resolution.  In the code,
`DiscordPerson.__eq__` compares `aclattr` (the resolved `fullname`, `None` on
a lookup miss), so with a member cache that resolves neither id, the persons
with ids "1" and "2" compare EQUAL although their ids differ: equality does
depend on whether display-name resolution succeeds. -/
theorem C1_eq_depends_on_resolution :
    DiscordPerson.eqPy [] ⟨"1"⟩ ⟨"2"⟩ = true ∧
      DiscordPerson.id ⟨"1"⟩ ≠ DiscordPerson.id ⟨"2"⟩ := by
  decide

/-- Claim C2: for a body of length `L` sent through `send_message` with the
maximum chunk size `DISCORD_MESSAGE_SIZE_LIMIT`, the body is split into
exactly `⌈L / limit⌉` chunks, each chunk is at most `limit` long, the chunks
concatenated in dispatch order reconstruct the body exactly, and the trace of
dispatched send calls lists the chunks in original order. -/
theorem C2_chunking_correct (body : List Char) :
    (send_message_chunks body DISCORD_MESSAGE_SIZE_LIMIT).length
        = body.length ⌈/⌉ DISCORD_MESSAGE_SIZE_LIMIT ∧
    (∀ c ∈ send_message_chunks body DISCORD_MESSAGE_SIZE_LIMIT,
        c.length ≤ DISCORD_MESSAGE_SIZE_LIMIT) ∧
    (send_message_chunks body DISCORD_MESSAGE_SIZE_LIMIT).flatten = body ∧
    sendContents (send_message_trace body)
        = send_message_chunks body DISCORD_MESSAGE_SIZE_LIMIT := by
  refine ⟨?_, send_message_chunks_le body _, ?_, ?_⟩
  · rw [Nat.ceilDiv_eq_add_pred_div]
    exact send_message_chunks_length body _
  · exact send_message_chunks_flatten _ (by norm_num [DISCORD_MESSAGE_SIZE_LIMIT]) body
  · exact (send_trace_aux (send_message_chunks body DISCORD_MESSAGE_SIZE_LIMIT)).2

/-- Claim C3 counterexample: the claim asserts a 5000-character body yields 3
send calls of lengths 2000, 2000, 1000 under a 2000-character limit; but the
single size constant in the source is 4096, and the 5000-character body is
split into 2 chunks, of lengths 4096 and 904. -/
theorem C3_counterexample :
    DISCORD_MESSAGE_SIZE_LIMIT ≠ 2000 ∧
    (send_message_chunks (List.replicate 5000 'a') DISCORD_MESSAGE_SIZE_LIMIT).map List.length
        ≠ [2000, 2000, 1000] ∧
    (send_message_chunks (List.replicate 5000 'a') DISCORD_MESSAGE_SIZE_LIMIT).length ≠ 3 := by
  refine ⟨by norm_num [DISCORD_MESSAGE_SIZE_LIMIT], ?_, ?_⟩
  · rw [chunks_of_5000]
    decide
  · have h := congrArg List.length chunks_of_5000
    simp only [List.length_map] at h
    rw [h]
    decide

/-- Claim C3 (amended): sending a 5000-character body through `send_message`
produces exactly 2 outbound send calls, with content lengths 4096 and 904 in
that order (the maximum-message-size constant of the implementation being
4096 characters), and their concatenation is the original body. -/
theorem C3_sending_5000 :
    (send_message_chunks (List.replicate 5000 'a') DISCORD_MESSAGE_SIZE_LIMIT).map List.length
        = [4096, 904] ∧
    (send_message_chunks (List.replicate 5000 'a') DISCORD_MESSAGE_SIZE_LIMIT).length = 2 ∧
    (send_message_chunks (List.replicate 5000 'a') DISCORD_MESSAGE_SIZE_LIMIT).flatten
        = List.replicate 5000 'a' := by
  refine ⟨chunks_of_5000, ?_, ?_⟩
  · have h := congrArg List.length chunks_of_5000
    simp only [List.length_map] at h
    rw [h]
    rfl
  · exact send_message_chunks_flatten _ (by norm_num [DISCORD_MESSAGE_SIZE_LIMIT]) _

/-- Claim C4 counterexample: the claim asserts a typing indicator is triggered
before every dispatched chunk; but the `send_message` trace for the body "hi"
is a send call immediately followed by the framework bookkeeping call, with no
typing event at all. -/
theorem C4_counterexample :
    send_message_trace ['h', 'i']
        = [SendEvent.sendCall ['h', 'i'], SendEvent.superSend] ∧
    SendEvent.typingCall ∉ send_message_trace ['h', 'i'] := by
  decide

/-- Claim C4 (amended): `send_message` triggers NO typing-indicator operation
for any chunk; each chunk is dispatched as an independent send call, the send
calls appear in original chunk order, and each is followed by the framework
`super().send_message` bookkeeping call. -/
theorem C4_no_typing_before_chunks (body : List Char) :
    SendEvent.typingCall ∉ send_message_trace body ∧
    sendContents (send_message_trace body)
        = send_message_chunks body DISCORD_MESSAGE_SIZE_LIMIT ∧
    send_message_trace body
        = ((send_message_chunks body DISCORD_MESSAGE_SIZE_LIMIT).map
            (fun c => [SendEvent.sendCall c, SendEvent.superSend])).flatten := by
  exact ⟨(send_trace_aux _).1, (send_trace_aux _).2, rfl⟩

/-- Claim C5 (spec-modelled): a Room construction handed both identifying
forms (an existing channel identifier as well as a name+guild pair) fails
with the "mutually exclusive" construction error rather than succeeding.
Settled against `DiscordRoom.init_both_forms`, modelled from the spec because
the constructor in src/ takes only the name+guild form. -/
theorem C5_both_forms_rejected (client : ClientState) (channel_name : String)
    (channel_id guild_id : Nat) :
    DiscordRoom.init_both_forms client (some channel_name) (some channel_id) guild_id
        = .error "mutually exclusive" :=
  rfl

/-- Claim C6: in a name+guild room lookup, if the filtered match list is
`c :: cs` with `cs` non-empty (two or more channels match name, guild and
kind), the lookup returns the first match `c` and the multiple-match warning
is logged; if no channel matches, the constructed room has `exists = false`. -/
theorem C6_room_lookup (client : ClientState) (channel_name : String) (guild_id : Nat)
    (c : DChannel) (cs : List DChannel) :
    (client.channels.filter (channel_matches channel_name guild_id .text) = c :: cs →
      cs ≠ [] →
      channel_name_to_id client channel_name guild_id .text = some c.id ∧
      channel_name_to_id_warns client channel_name guild_id .text = true) ∧
    (client.channels.filter (channel_matches channel_name guild_id .text) = [] →
      ∀ r, DiscordRoom.init client channel_name guild_id = .ok r →
        r.room_exists client = false) := by
  constructor
  · intro hm hcs
    constructor
    · simp [channel_name_to_id, hm]
    · simp only [channel_name_to_id_warns, hm, List.length_cons]
      cases cs with
      | nil => exact absurd rfl hcs
      | cons c2 cs2 => simp
  · intro hm r hr
    unfold DiscordRoom.init at hr
    cases hg : get_guild client guild_id with
    | none => rw [hg] at hr; cases hr
    | some g =>
      rw [hg] at hr
      cases hr
      simp [DiscordRoom.room_exists, channel_name_to_id, hm]

/-- Claim C6 witness: a cache with two text channels both named "general" in
guild 7 resolves to the first (id 1) with the warning; a room constructed
over a cache with no matching channel has `exists = false`. -/
theorem C6_witness :
    (channel_name_to_id ⟨[], [⟨1, "general", 7, .text⟩, ⟨2, "general", 7, .text⟩]⟩
          "general" 7 .text = some 1 ∧
      channel_name_to_id_warns ⟨[], [⟨1, "general", 7, .text⟩, ⟨2, "general", 7, .text⟩]⟩
          "general" 7 .text = true) ∧
    DiscordRoom.room_exists ⟨"general", 7, none⟩ ⟨[⟨7⟩], []⟩ = false := by
  constructor
  · exact (C6_room_lookup ⟨[], [⟨1, "general", 7, .text⟩, ⟨2, "general", 7, .text⟩]⟩
      "general" 7 ⟨1, "general", 7, .text⟩ [⟨2, "general", 7, .text⟩]).1
      (by decide) (by decide)
  · exact (C6_room_lookup ⟨[⟨7⟩], []⟩ "general" 7 ⟨0, "", 0, .text⟩ []).2
      (by decide) ⟨"general", 7, none⟩ (by rfl)

/-- Claim C7: a member-update event with equal before/after statuses invokes
zero presence callbacks; with different statuses at most one callback is
invoked, its status mapped by the fixed four-way table online→ONLINE,
offline→OFFLINE, idle→AWAY, dnd→DND, and the table is total on that
four-status enumeration. -/
theorem C7_presence_mapping (member_id : String) (before after : DStatus) :
    (before = after → on_member_update member_id before after = []) ∧
    (on_member_update member_id before after).length ≤ 1 ∧
    (∀ s, before ≠ after → status_table after = some s →
      on_member_update member_id before after = [⟨member_id, s⟩]) ∧
    (status_table .online = some .ONLINE ∧ status_table .offline = some .OFFLINE ∧
      status_table .idle = some .AWAY ∧ status_table .dnd = some .DND) := by
  refine ⟨?_, ?_, ?_, by decide⟩
  · intro h
    subst h
    simp [on_member_update]
  · cases before <;> cases after <;> simp [on_member_update]
  · intro s hne hs
    cases after <;> simp_all [status_table, on_member_update]

/-- Claim C7 witness: an update from dnd to idle yields exactly the AWAY
callback, an update from idle to idle yields none, and the table maps the
four statuses as stated. -/
theorem C7_witness :
    on_member_update "42" .idle .idle = [] ∧
    (on_member_update "42" .dnd .idle).length ≤ 1 ∧
    on_member_update "42" .dnd .idle = [⟨"42", .AWAY⟩] ∧
    (status_table .online = some .ONLINE ∧ status_table .offline = some .OFFLINE ∧
      status_table .idle = some .AWAY ∧ status_table .dnd = some .DND) :=
  ⟨(C7_presence_mapping "42" .idle .idle).1 rfl,
   (C7_presence_mapping "42" .dnd .idle).2.1,
   (C7_presence_mapping "42" .dnd .idle).2.2.1 .AWAY (by decide) (by decide),
   (C7_presence_mapping "42" .dnd .idle).2.2.2⟩

/-- Claim C8: `create` re-checks existence first and raises "Room exists"
when the room already exists, leaving the room object and client state
unchanged; `destroy` raises "Room doesn't exist" whenever the room does not
exist (state unchanged), and succeeds exactly when the room exists. -/
theorem C8_create_destroy (r : DiscordRoom) (client : ClientState) (fresh : Nat) :
    (r.room_exists client = true →
      r.create client fresh = ⟨some "Room exists", r, client⟩) ∧
    (r.room_exists client = false →
      r.destroy client = ⟨some "Room doesn't exist", r, client⟩) ∧
    ((r.destroy client).err = none ↔ r.room_exists client = true) := by
  unfold DiscordRoom.create DiscordRoom.destroy
  cases h : r.room_exists client <;> simp [h]

/-- Claim C8 witness: creating the existing room "general" (id 1) fails with
"Room exists" and changes nothing; destroying a room with no channel id fails
with "Room doesn't exist"; that destroy did not succeed. -/
theorem C8_witness :
    DiscordRoom.create ⟨"general", 7, some 1⟩ ⟨[⟨7⟩], [⟨1, "general", 7, .text⟩]⟩ 99
        = ⟨some "Room exists", ⟨"general", 7, some 1⟩, ⟨[⟨7⟩], [⟨1, "general", 7, .text⟩]⟩⟩ ∧
    DiscordRoom.destroy ⟨"general", 7, none⟩ ⟨[⟨7⟩], []⟩
        = ⟨some "Room doesn't exist", ⟨"general", 7, none⟩, ⟨[⟨7⟩], []⟩⟩ ∧
    ¬((DiscordRoom.destroy ⟨"general", 7, none⟩ ⟨[⟨7⟩], []⟩).err = none) := by
  refine ⟨?_, ?_, ?_⟩
  · exact (C8_create_destroy ⟨"general", 7, some 1⟩
      ⟨[⟨7⟩], [⟨1, "general", 7, .text⟩]⟩ 99).1 (by decide)
  · exact (C8_create_destroy ⟨"general", 7, none⟩ ⟨[⟨7⟩], []⟩ 0).2.1 (by decide)
  · intro h
    exact absurd ((C8_create_destroy ⟨"general", 7, none⟩ ⟨[⟨7⟩], []⟩ 0).2.2.mp h)
      (by decide)

/-- Claim C9 counterexample: the claim asserts plain-room `join` is a safe
no-op returning success; in the code `DiscordRoom.join` unconditionally
raises `RuntimeError("Can't join channels")`. -/
theorem C9_counterexample :
    DiscordRoom.join none none = Except.error "Can't join channels" ∧
    DiscordRoom.join none none ≠ Except.ok () := by
  refine ⟨rfl, ?_⟩
  intro h
  exact Except.noConfusion h

/-- Claim C9 (amended): for every plain room, `leave` is not implemented and
returns success after logging "Not implemented" (a safe no-op), while `join`
always fails with the hard error "Can't join channels"; for every category,
`join` and `leave` always fail with hard errors. -/
theorem C9_join_leave (username password reason : Option String) :
    DiscordRoom.join username password = Except.error "Can't join channels" ∧
    DiscordRoom.leave reason = Except.ok () ∧
    DiscordRoom.leave_log = "Not implemented" ∧
    DiscordCategory.join username password = Except.error "Can't join categories" ∧
    DiscordCategory.leave reason = Except.error "Can't leave categories" :=
  ⟨rfl, rfl, rfl, rfl, rfl⟩

/-- Claim C10: with a non-empty guild list, `query_room` on an address that
starts with neither "##" nor "#" returns `None`: no error is raised and no
room object is constructed. -/
theorem C10_query_room_unprefixed (client : ClientState) (room : String)
    (hg : client.guilds ≠ [])
    (h2 : pyStartsWith room "##" = false) (h1 : pyStartsWith room "#" = false) :
    query_room client room = .ok none := by
  unfold query_room
  cases hgl : client.guilds with
  | nil => exact absurd hgl hg
  | cons g gs => simp [List.head?, h1, h2]

/-- Claim C10 witness: querying the unprefixed address "general" against a
client in guild 7 returns `None` without error. -/
theorem C10_witness :
    (⟨[⟨7⟩], []⟩ : ClientState).guilds ≠ [] ∧
    pyStartsWith "general" "##" = false ∧
    pyStartsWith "general" "#" = false ∧
    query_room ⟨[⟨7⟩], []⟩ "general" = .ok none :=
  ⟨by decide, by decide, by decide,
   C10_query_room_unprefixed ⟨[⟨7⟩], []⟩ "general" (by decide) (by decide) (by decide)⟩

end Discordb
